import Mathlib

/-!
Shallow embedding of the Prosacco supply-chain KPI engine
(`src/analytics/kpi.py`, functions `_demand_window_days`, `_supply_by_week`,
`_inventory_by_sku`, `_demand_by_sku`, `_production_by_sku`,
`_otif_ratio_for_sku` and `compute_kpis`).

Modelling choices:
* numeric quantities are rationals (`ℚ`), abstracting Python floats;
* a calendar date is an integer day number (`ℤ`); the ISO-week derivation
  `expected_week = isocalendar().week` is abstracted by an arbitrary
  function `weekOf : ℤ → ℤ` passed as a parameter (the engine only ever
  uses the derived week, never the date itself, except for the
  days-of-cover demand window which uses the day numbers directly);
* an unparseable `expected` value is `Option.none` (pandas `NaT`);
* pandas `NaN` sentinels in results are `Option.none`; the positive
  infinity produced for days of cover is the dedicated constructor
  `DaysOfCover.infinite`;
* a pandas `groupby(...).sum()` series is represented by its underlying
  list of (key, value) pairs; `series_keys` is its (deduplicated) index,
  `series_get` its `.get(key, 0)`, and `series_total` its `.sum()`;
* Python `round(x, n)` (round to `n` decimal places) is modelled by
  `round_to n` on `ℚ`, rounding to the nearest multiple of `10 ^ (-n)`
  (the tie-breaking direction of binary floats is abstracted; no claim
  below depends on a tie).
-/

namespace Prosacco

/-- One row of the inventory snapshot (`load_inventory` output): a SKU and
its available quantity. -/
structure InventoryRecord where
  sku : String
  available : ℚ
  deriving DecidableEq

/-- One row of the order report (`load_orders` output): a SKU, the ordered
quantity `qty_ord`, and the parsed `expected_date` (`none` when the raw
value failed to parse, i.e. pandas `NaT`). -/
structure OrderRecord where
  sku : String
  qty_ord : ℚ
  expected_date : Option ℤ
  deriving DecidableEq

/-- One row of the long-form production plan (`load_production_plan`
output): a SKU, a week number, and the produced quantity. -/
structure ProductionRecord where
  sku : String
  week : ℤ
  produced : ℚ
  deriving DecidableEq

/-- `inventory.groupby("sku")["available"].sum().get(sku, 0)`. -/
def inventory_by_sku (inventory : List InventoryRecord) (sku : String) : ℚ :=
  ((inventory.filter (fun r => r.sku == sku)).map (fun r => r.available)).sum

/-- `orders.groupby("sku")["qty_ord"].sum().get(sku, 0)`: the SKU's full
total demand, orders with unparseable dates included. -/
def demand_by_sku (orders : List OrderRecord) (sku : String) : ℚ :=
  ((orders.filter (fun r => r.sku == sku)).map (fun r => r.qty_ord)).sum

/-- `production_long.groupby("sku")["produced"].sum().get(sku, 0)`. -/
def production_by_sku (production : List ProductionRecord) (sku : String) : ℚ :=
  ((production.filter (fun r => r.sku == sku)).map (fun r => r.produced)).sum

/-- The index of a grouped series: the distinct keys, in order of first
occurrence. -/
def series_keys (pairs : List (ℤ × ℚ)) : List ℤ :=
  (pairs.map Prod.fst).dedup

/-- `series.get(w, 0)` of a grouped series: the sum of the values grouped
under key `w`. -/
def series_get (pairs : List (ℤ × ℚ)) (w : ℤ) : ℚ :=
  ((pairs.filter (fun p => p.1 == w)).map Prod.snd).sum

/-- `series.sum()` of a grouped series: the sum of the per-key group sums. -/
def series_total (pairs : List (ℤ × ℚ)) : ℚ :=
  ((series_keys pairs).map (series_get pairs)).sum

/-- The (week, quantity) pairs of the SKU's orders that have a parseable
`expected_date`, weeks derived through `weekOf`.  This is the underlying
data of `orders.groupby(["sku", "expected_week"])["qty_ord"].sum().xs(sku)`
(rows with `NaT` dates are dropped by the groupby on `expected_week`). -/
def dated_pairs (weekOf : ℤ → ℤ) (orders : List OrderRecord) (sku : String) :
    List (ℤ × ℚ) :=
  (orders.filter (fun r => r.sku == sku && r.expected_date.isSome)).filterMap
    (fun r => r.expected_date.map (fun d => (weekOf d, r.qty_ord)))

/-- The (week, quantity) pairs behind
`production_long.groupby(["sku", "week"])["produced"].sum().xs(sku)`. -/
def production_pairs (production : List ProductionRecord) (sku : String) :
    List (ℤ × ℚ) :=
  (production.filter (fun r => r.sku == sku)).map (fun r => (r.week, r.produced))

/-- The running state of the OTIF simulation loop in `_otif_ratio_for_sku`. -/
structure OtifState where
  cumulative_supply : ℚ
  cumulative_demand : ℚ
  on_time_units : ℚ
  deriving DecidableEq

/-- One iteration of the week loop of `_otif_ratio_for_sku`: add the week's
demand and supply to the running totals and cap the on-time units by the
cumulative supply. -/
def otif_step (dget sget : ℤ → ℚ) (st : OtifState) (week : ℤ) : OtifState :=
  { cumulative_supply := st.cumulative_supply + sget week
    cumulative_demand := st.cumulative_demand + dget week
    on_time_units :=
      min (st.on_time_units + dget week) (st.cumulative_supply + sget week) }

/-- The week loop of `_otif_ratio_for_sku`, folded over the given weeks. -/
def otif_sim (dget sget : ℤ → ℚ) (weeks : List ℤ) (st : OtifState) : OtifState :=
  weeks.foldl (otif_step dget sget) st

/-- `sorted(set(demand_weekly.index).union(supply_weekly.index))`. -/
def sorted_weeks (dkeys skeys : List ℤ) : List ℤ :=
  ((dkeys ++ skeys).dedup).insertionSort (· ≤ ·)

/-- `_otif_ratio_for_sku(sku, demand_weekly, supply_weekly, starting_inventory)`
from `src/analytics/kpi.py`: returns 1 when the weekly demand series sums
to at most 0, else runs the week-by-week simulation starting from the
on-hand inventory and divides the resulting on-time units by the weekly
demand series total. -/
def otif_ratio_for_sku (demand_pairs supply_pairs : List (ℤ × ℚ))
    (starting_inventory : ℚ) : ℚ :=
  let total_demand := series_total demand_pairs
  if total_demand ≤ 0 then 1
  else
    let weeks := sorted_weeks (series_keys demand_pairs) (series_keys supply_pairs)
    (otif_sim (series_get demand_pairs) (series_get supply_pairs) weeks
      ⟨starting_inventory, 0, 0⟩).on_time_units / total_demand

/-- The parseable expected dates of the SKU's orders
(`orders.dropna(subset=["expected_date"])` restricted to the SKU). -/
def parseable_dates (orders : List OrderRecord) (sku : String) : List ℤ :=
  (orders.filter (fun r => r.sku == sku)).filterMap (fun r => r.expected_date)

/-- `_demand_window_days(orders).get(sku)`: `none` when the SKU has no
order with a parseable date, else `max((max_date - min_date).days + 1, 1)`. -/
def demand_window_days (orders : List OrderRecord) (sku : String) : Option ℤ :=
  match parseable_dates orders sku with
  | [] => none
  | d :: ds => some (max ((ds.foldl max d) - (ds.foldl min d) + 1) 1)

/-- `demand_total / window_days if window_days else 0.0`
(`compute_kpis`, avg daily demand). -/
def avg_daily_demand (demand_total : ℚ) (window_days : Option ℤ) : ℚ :=
  match window_days with
  | none => 0
  | some w => demand_total / (w : ℚ)

/-- The days-of-cover value of one SKU row: finite, positive infinity
(`float("inf")`), or not applicable (`np.nan`). -/
inductive DaysOfCover where
  | na : DaysOfCover
  | finite : ℚ → DaysOfCover
  | infinite : DaysOfCover
  deriving DecidableEq

/-- The days-of-cover branch of `compute_kpis`: `supply_total / avg_daily`
when `avg_daily > 0`, else `inf` when `supply_total > 0`, else `nan`. -/
def days_of_cover_calc (supply_total avg_daily : ℚ) : DaysOfCover :=
  if avg_daily ≤ 0 then
    if supply_total > 0 then DaysOfCover.infinite else DaysOfCover.na
  else DaysOfCover.finite (supply_total / avg_daily)

/-- The fill-rate expression of `compute_kpis`:
`np.nan if demand_total <= 0 else min(supply_total, demand_total) / demand_total`. -/
def fill_rate_calc (demand_total supply_total : ℚ) : Option ℚ :=
  if demand_total ≤ 0 then none
  else some (min supply_total demand_total / demand_total)

/-- Python `round(q, places)` on `ℚ`: round to the nearest multiple of
`10 ^ (-places)` (float tie-breaking abstracted). -/
def round_to (places : ℕ) (q : ℚ) : ℚ :=
  ((round (q * 10 ^ places) : ℤ) : ℚ) / 10 ^ places

/-- Round a days-of-cover value to 2 decimals when finite and leave the
`inf` / `nan` sentinels alone
(`round(days_cover, 2) if np.isfinite(days_cover) else days_cover`). -/
def round_days_of_cover (dc : DaysOfCover) : DaysOfCover :=
  match dc with
  | DaysOfCover.finite q => DaysOfCover.finite (round_to 2 q)
  | other => other

/-- One row of the per-SKU KPI table appended to `kpi_rows` in
`compute_kpis` (fill rate and OTIF already rounded to 4 decimals, days of
cover to 2, exactly as the dict literal does). -/
structure KpiRow where
  sku : String
  total_demand : ℚ
  total_supply : ℚ
  fill_rate : Option ℚ
  otif : ℚ
  days_of_cover : DaysOfCover
  deriving DecidableEq

/-- The `totals` dict returned by `compute_kpis` (`np.nan` = `none`). -/
structure KpiTotals where
  total_demand : ℚ
  total_supply : ℚ
  fill_rate : Option ℚ
  otif : Option ℚ
  days_of_cover : Option ℚ
  deriving DecidableEq

/-- `sorted(set(demand_by_sku.index) | set(inventory_by_sku.index) |
set(production_by_sku.index))`: the sorted SKU universe. -/
def all_skus (inventory : List InventoryRecord) (orders : List OrderRecord)
    (production : List ProductionRecord) : List String :=
  (((orders.map (fun r => r.sku)) ++ (inventory.map (fun r => r.sku)) ++
    (production.map (fun r => r.sku))).dedup).insertionSort (· ≤ ·)

/-- The per-SKU OTIF value computed inside the loop body of `compute_kpis`
(before rounding): `_otif_ratio_for_sku` applied to the SKU's weekly
demand and supply series with the SKU's inventory total as starting
supply. -/
def otif_for (weekOf : ℤ → ℤ) (inventory : List InventoryRecord)
    (orders : List OrderRecord) (production : List ProductionRecord)
    (sku : String) : ℚ :=
  otif_ratio_for_sku (dated_pairs weekOf orders sku)
    (production_pairs production sku) (inventory_by_sku inventory sku)

/-- The loop body of `compute_kpis` for one SKU: builds the row appended
to `kpi_rows`. -/
def kpi_row_for_sku (weekOf : ℤ → ℤ) (inventory : List InventoryRecord)
    (orders : List OrderRecord) (production : List ProductionRecord)
    (sku : String) : KpiRow :=
  let demand_total := demand_by_sku orders sku
  let inventory_total := inventory_by_sku inventory sku
  let production_total := production_by_sku production sku
  let supply_total := inventory_total + production_total
  let fill_rate := fill_rate_calc demand_total supply_total
  let otif := otif_for weekOf inventory orders production sku
  let window_days := demand_window_days orders sku
  let avg_daily := avg_daily_demand demand_total window_days
  let days_cover := days_of_cover_calc supply_total avg_daily
  { sku := sku
    total_demand := demand_total
    total_supply := supply_total
    fill_rate := fill_rate.map (round_to 4)
    otif := round_to 4 otif
    days_of_cover := round_days_of_cover days_cover }

/-- `compute_kpis(inventory, orders, production_long)` from
`src/analytics/kpi.py`: the per-SKU KPI table (one row per SKU of the
sorted SKU universe) and the aggregate totals.  The weighted aggregates
are computed from the table's columns, i.e. from the already-rounded
per-SKU fill-rate / OTIF / days-of-cover values, while the overall demand
and supply use the unrounded totals columns; infinite and not-applicable
days-of-cover entries contribute nothing to the weighted days-of-cover sum
(pandas `replace({inf: nan})` followed by a NaN-skipping `.sum()`). -/
def compute_kpis (weekOf : ℤ → ℤ) (inventory : List InventoryRecord)
    (orders : List OrderRecord) (production : List ProductionRecord) :
    List KpiRow × KpiTotals :=
  let rows := (all_skus inventory orders production).map
    (kpi_row_for_sku weekOf inventory orders production)
  let overall_demand := (rows.map (fun r => r.total_demand)).sum
  let overall_supply := (rows.map (fun r => r.total_supply)).sum
  let overall_fill_rate :=
    if overall_demand > 0 then some (min overall_supply overall_demand / overall_demand)
    else none
  let weighted_otif :=
    if overall_demand > 0 then
      some ((rows.map (fun r => r.otif * r.total_demand)).sum / overall_demand)
    else none
  let weighted_days_cover :=
    if overall_demand > 0 then
      some ((rows.map (fun r =>
        match r.days_of_cover with
        | DaysOfCover.finite q => q * r.total_demand
        | _ => 0)).sum / overall_demand)
    else none
  (rows,
    { total_demand := overall_demand
      total_supply := overall_supply
      fill_rate := overall_fill_rate
      otif := weighted_otif
      days_of_cover := weighted_days_cover })

/-! ### Basic lemmas about the OTIF simulation loop -/

theorem otif_sim_cons (dget sget : ℤ → ℚ) (w : ℤ) (ws : List ℤ) (st : OtifState) :
    otif_sim dget sget (w :: ws) st = otif_sim dget sget ws (otif_step dget sget st w) :=
  rfl

theorem otif_sim_cumulative_demand (dget sget : ℤ → ℚ) :
    ∀ (weeks : List ℤ) (st : OtifState),
      (otif_sim dget sget weeks st).cumulative_demand
        = st.cumulative_demand + (weeks.map dget).sum := by
  intro weeks
  induction weeks with
  | nil => intro st; simp [otif_sim]
  | cons w ws ih =>
    intro st
    rw [otif_sim_cons, ih]
    simp [otif_step]
    ring

theorem otif_sim_cumulative_supply (dget sget : ℤ → ℚ) :
    ∀ (weeks : List ℤ) (st : OtifState),
      (otif_sim dget sget weeks st).cumulative_supply
        = st.cumulative_supply + (weeks.map sget).sum := by
  intro weeks
  induction weeks with
  | nil => intro st; simp [otif_sim]
  | cons w ws ih =>
    intro st
    rw [otif_sim_cons, ih]
    simp [otif_step]
    ring

/-- The invariant maintained by the week loop of `_otif_ratio_for_sku`:
with non-negative weekly demand and supply, the on-time units stay
non-negative, never exceed the cumulative demand or the cumulative supply,
and never decrease. -/
theorem otif_sim_inv (dget sget : ℤ → ℚ) (hd : ∀ w, 0 ≤ dget w)
    (hs : ∀ w, 0 ≤ sget w) :
    ∀ (weeks : List ℤ) (st : OtifState),
      0 ≤ st.on_time_units →
      st.on_time_units ≤ st.cumulative_demand →
      st.on_time_units ≤ st.cumulative_supply →
      0 ≤ (otif_sim dget sget weeks st).on_time_units ∧
      (otif_sim dget sget weeks st).on_time_units
        ≤ (otif_sim dget sget weeks st).cumulative_demand ∧
      (otif_sim dget sget weeks st).on_time_units
        ≤ (otif_sim dget sget weeks st).cumulative_supply ∧
      st.on_time_units ≤ (otif_sim dget sget weeks st).on_time_units := by
  intro weeks
  induction weeks with
  | nil =>
    intro st h0 hcd hcs
    exact ⟨h0, hcd, hcs, le_refl _⟩
  | cons w ws ih =>
    intro st h0 hcd hcs
    rw [otif_sim_cons]
    have hstep0 : 0 ≤ (otif_step dget sget st w).on_time_units := by
      simp only [otif_step]
      exact le_min (by linarith [hd w]) (by linarith [hs w])
    have hstepd : (otif_step dget sget st w).on_time_units
        ≤ (otif_step dget sget st w).cumulative_demand := by
      simp only [otif_step]
      exact le_trans (min_le_left _ _) (by linarith)
    have hsteps : (otif_step dget sget st w).on_time_units
        ≤ (otif_step dget sget st w).cumulative_supply := by
      simp only [otif_step]
      exact min_le_right _ _
    have hmono : st.on_time_units ≤ (otif_step dget sget st w).on_time_units := by
      simp only [otif_step]
      exact le_min (by linarith [hd w]) (by linarith [hs w])
    obtain ⟨a, b, c, d⟩ := ih (otif_step dget sget st w) hstep0 hstepd hsteps
    exact ⟨a, b, c, le_trans hmono d⟩

/-! ### Lemmas about grouped series -/

theorem series_get_nonneg (pairs : List (ℤ × ℚ))
    (h : ∀ p ∈ pairs, 0 ≤ p.2) (w : ℤ) : 0 ≤ series_get pairs w := by
  apply List.sum_nonneg
  intro x hx
  simp only [List.mem_map] at hx
  obtain ⟨p, hp, rfl⟩ := hx
  exact h p (List.mem_of_mem_filter hp)

theorem series_get_eq_zero (pairs : List (ℤ × ℚ)) (w : ℤ)
    (hw : w ∉ series_keys pairs) : series_get pairs w = 0 := by
  have : pairs.filter (fun p => p.1 == w) = [] := by
    rw [List.filter_eq_nil_iff]
    intro p hp hpw
    apply hw
    simp only [series_keys, List.mem_dedup, List.mem_map]
    exact ⟨p, hp, by simpa using hpw⟩
  simp [series_get, this]

theorem sum_map_ite_of_not_mem (K : List ℤ) (a : ℤ) (c : ℚ) (ha : a ∉ K) :
    (K.map (fun w => if a = w then c else 0)).sum = 0 := by
  induction K with
  | nil => simp
  | cons k K ih =>
    simp only [List.mem_cons, not_or] at ha
    simp [ha.1, ih ha.2]

theorem sum_map_ite_of_mem (K : List ℤ) (a : ℤ) (c : ℚ) (hnd : K.Nodup)
    (ha : a ∈ K) : (K.map (fun w => if a = w then c else 0)).sum = c := by
  induction K with
  | nil => simp at ha
  | cons k K ih =>
    rcases List.mem_cons.1 ha with h | h
    · subst h
      have : a ∉ K := (List.nodup_cons.1 hnd).1
      simp [sum_map_ite_of_not_mem K a c this]
    · have hak : ¬a = k := by
        rintro rfl
        exact (List.nodup_cons.1 hnd).1 h
      have : ¬k = a := fun hk => hak hk.symm
      simp only [List.map_cons, List.sum_cons, if_neg hak]
      rw [ih (List.nodup_cons.1 hnd).2 h]
      ring

theorem series_get_cons (p : ℤ × ℚ) (t : List (ℤ × ℚ)) (w : ℤ) :
    series_get (p :: t) w = (if p.1 = w then p.2 else 0) + series_get t w := by
  simp only [series_get, List.filter_cons]
  by_cases h : p.1 = w
  · simp [h]
  · simp [h]

theorem sum_fiber_keys (l : List (ℤ × ℚ)) (K : List ℤ) (hnd : K.Nodup)
    (hmem : ∀ p ∈ l, p.1 ∈ K) :
    (K.map (series_get l)).sum = (l.map Prod.snd).sum := by
  induction l with
  | nil =>
    have h0 : series_get ([] : List (ℤ × ℚ)) = fun _ => 0 :=
      funext fun w => by simp [series_get]
    simp [h0]
  | cons p t ih =>
    have hK : (K.map (series_get (p :: t))).sum
        = (K.map (fun w => if p.1 = w then p.2 else 0)).sum
          + (K.map (series_get t)).sum := by
      rw [← List.sum_map_add]
      exact congrArg List.sum
        (List.map_congr_left (fun w _ => series_get_cons p t w))
    rw [hK, sum_map_ite_of_mem K p.1 p.2 hnd (hmem p (List.mem_cons_self p t)),
      ih (fun q hq => hmem q (List.mem_cons_of_mem p hq))]
    simp

/-- A grouped series sums to the sum of the raw values it was built from:
`groupby(...).sum().sum()` equals the plain column sum. -/
theorem series_total_eq_raw_sum (l : List (ℤ × ℚ)) :
    series_total l = (l.map Prod.snd).sum := by
  apply sum_fiber_keys
  · exact List.nodup_dedup _
  · intro p hp
    simp only [series_keys, List.mem_dedup, List.mem_map]
    exact ⟨p, hp, rfl⟩

theorem sum_over_keys_superset (K W : List ℤ) (f : ℤ → ℚ) (hK : K.Nodup)
    (hW : W.Nodup) (hsub : ∀ w ∈ K, w ∈ W)
    (hzero : ∀ w ∈ W, w ∉ K → f w = 0) :
    (W.map f).sum = (K.map f).sum := by
  rw [← List.sum_toFinset f hW, ← List.sum_toFinset f hK]
  refine (Finset.sum_subset ?_ ?_).symm
  · intro x hx
    exact List.mem_toFinset.2 (hsub x (List.mem_toFinset.1 hx))
  · intro x hx hnx
    exact hzero x (List.mem_toFinset.1 hx) (fun h => hnx (List.mem_toFinset.2 h))

/-- Summing the demand series over the sorted union of demand and supply
weeks gives back the demand series total: the supply-only weeks contribute
no demand. -/
theorem sorted_weeks_demand_sum (dp sp : List (ℤ × ℚ)) :
    ((sorted_weeks (series_keys dp) (series_keys sp)).map (series_get dp)).sum
      = series_total dp := by
  have hperm : List.Perm (sorted_weeks (series_keys dp) (series_keys sp))
      ((series_keys dp ++ series_keys sp).dedup) :=
    List.perm_insertionSort _ _
  rw [List.Perm.sum_eq (hperm.map (series_get dp))]
  exact sum_over_keys_superset (series_keys dp)
    ((series_keys dp ++ series_keys sp).dedup) (series_get dp)
    (List.nodup_dedup _) (List.nodup_dedup _)
    (fun w hw => List.mem_dedup.2 (List.mem_append_left _ hw))
    (fun w _ hw => series_get_eq_zero dp w hw)

/-! ### Non-negativity of the aggregated quantities -/

theorem inventory_by_sku_nonneg (inventory : List InventoryRecord)
    (h : ∀ r ∈ inventory, 0 ≤ r.available) (sku : String) :
    0 ≤ inventory_by_sku inventory sku := by
  apply List.sum_nonneg
  intro x hx
  simp only [List.mem_map] at hx
  obtain ⟨r, hr, rfl⟩ := hx
  exact h r (List.mem_of_mem_filter hr)

theorem demand_by_sku_nonneg (orders : List OrderRecord)
    (h : ∀ r ∈ orders, 0 ≤ r.qty_ord) (sku : String) :
    0 ≤ demand_by_sku orders sku := by
  apply List.sum_nonneg
  intro x hx
  simp only [List.mem_map] at hx
  obtain ⟨r, hr, rfl⟩ := hx
  exact h r (List.mem_of_mem_filter hr)

theorem production_by_sku_nonneg (production : List ProductionRecord)
    (h : ∀ r ∈ production, 0 ≤ r.produced) (sku : String) :
    0 ≤ production_by_sku production sku := by
  apply List.sum_nonneg
  intro x hx
  simp only [List.mem_map] at hx
  obtain ⟨r, hr, rfl⟩ := hx
  exact h r (List.mem_of_mem_filter hr)

theorem dated_pairs_snd_nonneg (weekOf : ℤ → ℤ) (orders : List OrderRecord)
    (h : ∀ r ∈ orders, 0 ≤ r.qty_ord) (sku : String) :
    ∀ p ∈ dated_pairs weekOf orders sku, 0 ≤ p.2 := by
  intro p hp
  simp only [dated_pairs, List.mem_filterMap] at hp
  obtain ⟨r, hr, hmap⟩ := hp
  obtain ⟨d, _, rfl⟩ := Option.map_eq_some'.1 hmap
  exact h r (List.mem_of_mem_filter hr)

theorem production_pairs_snd_nonneg (production : List ProductionRecord)
    (h : ∀ r ∈ production, 0 ≤ r.produced) (sku : String) :
    ∀ p ∈ production_pairs production sku, 0 ≤ p.2 := by
  intro p hp
  simp only [production_pairs, List.mem_map] at hp
  obtain ⟨r, hr, rfl⟩ := hp
  exact h r (List.mem_of_mem_filter hr)

/-! ### The weekly demand series against the dated demand total -/

/-- The total demand of the SKU's orders that carry a parseable
`expected_date` (the demand visible to the time-phased OTIF simulation). -/
def demand_dated_by_sku (orders : List OrderRecord) (sku : String) : ℚ :=
  ((orders.filter (fun r => r.sku == sku && r.expected_date.isSome)).map
    (fun r => r.qty_ord)).sum

theorem filterMap_dated_sum (weekOf : ℤ → ℤ) :
    ∀ (l : List OrderRecord), (∀ r ∈ l, r.expected_date.isSome = true) →
      ((l.filterMap
          (fun r => r.expected_date.map (fun d => (weekOf d, r.qty_ord)))).map
        Prod.snd).sum
        = (l.map (fun r => r.qty_ord)).sum := by
  intro l
  induction l with
  | nil => simp
  | cons r t ih =>
    intro h
    obtain ⟨d, hd⟩ := Option.isSome_iff_exists.1 (h r (List.mem_cons_self r t))
    have ht := ih (fun q hq => h q (List.mem_cons_of_mem r hq))
    simp [List.filterMap_cons, hd, ht]

/-- `demand_weekly.sum()` inside `_otif_ratio_for_sku` is the SKU's dated
demand total: orders whose expected date failed to parse are absent from
the denominator, not only from the weekly buckets. -/
theorem series_total_dated_pairs (weekOf : ℤ → ℤ) (orders : List OrderRecord)
    (sku : String) :
    series_total (dated_pairs weekOf orders sku)
      = demand_dated_by_sku orders sku := by
  rw [series_total_eq_raw_sum, dated_pairs, demand_dated_by_sku]
  apply filterMap_dated_sum
  intro r hr
  have h2 : r.sku = sku ∧ r.expected_date.isSome = true := by
    simpa using List.of_mem_filter hr
  exact h2.2

/-! ### The per-SKU OTIF ratio is a genuine ratio in [0, 1] -/

theorem otif_ratio_for_sku_mem (dp sp : List (ℤ × ℚ)) (inv : ℚ)
    (hdp : ∀ p ∈ dp, 0 ≤ p.2) (hsp : ∀ p ∈ sp, 0 ≤ p.2) (hinv : 0 ≤ inv) :
    0 ≤ otif_ratio_for_sku dp sp inv ∧ otif_ratio_for_sku dp sp inv ≤ 1 := by
  unfold otif_ratio_for_sku
  by_cases h : series_total dp ≤ 0
  · simp [h]
  · have hpos : 0 < series_total dp := lt_of_not_le h
    simp only [h, if_false]
    set weeks := sorted_weeks (series_keys dp) (series_keys sp) with hweeks
    set res := otif_sim (series_get dp) (series_get sp) weeks ⟨inv, 0, 0⟩ with hres
    have hinva := otif_sim_inv (series_get dp) (series_get sp)
      (series_get_nonneg dp hdp) (series_get_nonneg sp hsp) weeks
      ⟨inv, 0, 0⟩ (le_refl 0) (le_refl 0) hinv
    have hcd : res.cumulative_demand = series_total dp := by
      rw [hres, otif_sim_cumulative_demand]
      simpa using sorted_weeks_demand_sum dp sp
    constructor
    · exact div_nonneg hinva.1 (le_of_lt hpos)
    · rw [div_le_one hpos]
      exact le_trans hinva.2.1 (le_of_eq hcd)

/-! ### Rounding lemmas -/

theorem round_to_nonneg (n : ℕ) (q : ℚ) (h : 0 ≤ q) : 0 ≤ round_to n q := by
  unfold round_to
  apply div_nonneg _ (by positivity)
  have h10 : (0 : ℚ) ≤ q * 10 ^ n := by positivity
  have : (0 : ℤ) ≤ round (q * 10 ^ n) := by
    rw [round_eq]
    refine Int.le_floor.2 ?_
    push_cast
    linarith
  exact_mod_cast this

theorem round_to_le_one (n : ℕ) (q : ℚ) (h : q ≤ 1) : round_to n q ≤ 1 := by
  unfold round_to
  rw [div_le_one (by positivity)]
  have hmul : q * 10 ^ n ≤ 10 ^ n := by
    have : (0 : ℚ) < 10 ^ n := by positivity
    nlinarith
  have hround : round (q * 10 ^ n) ≤ (10 ^ n : ℤ) := by
    rw [round_eq]
    have hle : q * 10 ^ n + 1 / 2 ≤ ((10 ^ n : ℤ) : ℚ) + 1 / 2 := by
      push_cast
      linarith
    calc ⌊q * 10 ^ n + 1 / 2⌋ ≤ ⌊((10 ^ n : ℤ) : ℚ) + 1 / 2⌋ := Int.floor_le_floor hle
      _ = 10 ^ n + ⌊(1 / 2 : ℚ)⌋ := Int.floor_int_add _ _
      _ = 10 ^ n := by norm_num [Int.floor_eq_zero_iff]
  calc ((round (q * 10 ^ n) : ℤ) : ℚ) ≤ ((10 ^ n : ℤ) : ℚ) := by exact_mod_cast hround
    _ = 10 ^ n := by push_cast; ring

theorem round_to_one (n : ℕ) : round_to n 1 = 1 := by
  unfold round_to
  rw [one_mul, show ((10 : ℚ) ^ n) = ((10 ^ n : ℤ) : ℚ) by push_cast; ring,
    round_intCast]
  rw [div_self]
  positivity

theorem round_to_zero (n : ℕ) : round_to n 0 = 0 := by
  simp [round_to]

/-! ### Fold-based maximum and minimum of a nonempty list -/

theorem le_foldl_max (d : ℤ) (ds : List ℤ) :
    ∀ x ∈ d :: ds, x ≤ ds.foldl max d := by
  induction ds generalizing d with
  | nil => intro x hx; simp at hx; simp [hx]
  | cons e es ih =>
    intro x hx
    rcases List.mem_cons.1 hx with h | h
    · subst h
      exact le_trans (le_max_left x e)
        (ih (max x e) _ (List.mem_cons_self _ _))
    · rcases List.mem_cons.1 h with h2 | h2
      · subst h2
        exact le_trans (le_max_right d x)
          (ih (max d x) _ (List.mem_cons_self _ _))
      · exact ih (max d e) x (List.mem_cons_of_mem _ h2)

theorem foldl_max_mem (d : ℤ) (ds : List ℤ) : ds.foldl max d ∈ d :: ds := by
  induction ds generalizing d with
  | nil => simp
  | cons e es ih =>
    have := ih (max d e)
    rcases List.mem_cons.1 this with h | h
    · rcases max_choice d e with hm | hm <;> rw [List.foldl_cons, h, hm]
      · exact List.mem_cons_self _ _
      · exact List.mem_cons_of_mem _ (List.mem_cons_self _ _)
    · exact List.mem_cons_of_mem _ (List.mem_cons_of_mem _ h)

theorem foldl_min_le (d : ℤ) (ds : List ℤ) :
    ∀ x ∈ d :: ds, ds.foldl min d ≤ x := by
  induction ds generalizing d with
  | nil => intro x hx; simp at hx; simp [hx]
  | cons e es ih =>
    intro x hx
    rcases List.mem_cons.1 hx with h | h
    · subst h
      exact le_trans (ih (min x e) _ (List.mem_cons_self _ _))
        (min_le_left x e)
    · rcases List.mem_cons.1 h with h2 | h2
      · subst h2
        exact le_trans (ih (min d x) _ (List.mem_cons_self _ _))
          (min_le_right d x)
      · exact ih (min d e) x (List.mem_cons_of_mem _ h2)

theorem foldl_min_mem (d : ℤ) (ds : List ℤ) : ds.foldl min d ∈ d :: ds := by
  induction ds generalizing d with
  | nil => simp
  | cons e es ih =>
    have := ih (min d e)
    rcases List.mem_cons.1 this with h | h
    · rcases min_choice d e with hm | hm <;> rw [List.foldl_cons, h, hm]
      · exact List.mem_cons_self _ _
      · exact List.mem_cons_of_mem _ (List.mem_cons_self _ _)
    · exact List.mem_cons_of_mem _ (List.mem_cons_of_mem _ h)

/-! ### Dated demand against full demand, and the zero-demand OTIF policy -/

theorem demand_dated_le_demand (orders : List OrderRecord)
    (h : ∀ r ∈ orders, 0 ≤ r.qty_ord) (sku : String) :
    demand_dated_by_sku orders sku ≤ demand_by_sku orders sku := by
  unfold demand_dated_by_sku demand_by_sku
  have hfilter : orders.filter (fun r => r.sku == sku && r.expected_date.isSome)
      = (orders.filter (fun r => r.sku == sku)).filter
          (fun r => r.expected_date.isSome) := by
    rw [List.filter_filter]
    apply List.filter_congr
    intro r _
    rw [Bool.and_comm]
  rw [hfilter]
  apply List.Sublist.sum_le_sum
  · exact List.Sublist.map _ (List.filter_sublist _)
  · intro x hx
    simp only [List.mem_map] at hx
    obtain ⟨r, hr, rfl⟩ := hx
    exact h r (List.mem_of_mem_filter hr)

theorem demand_dated_nonneg (orders : List OrderRecord)
    (h : ∀ r ∈ orders, 0 ≤ r.qty_ord) (sku : String) :
    0 ≤ demand_dated_by_sku orders sku := by
  apply List.sum_nonneg
  intro x hx
  simp only [List.mem_map] at hx
  obtain ⟨r, hr, rfl⟩ := hx
  exact h r (List.mem_of_mem_filter hr)

/-- A SKU with zero full demand has (pre-rounding) OTIF exactly 1: the
weekly demand series then sums to zero and `_otif_ratio_for_sku` takes its
early-return branch. -/
theorem otif_for_eq_one_of_zero_demand (weekOf : ℤ → ℤ)
    (inventory : List InventoryRecord) (orders : List OrderRecord)
    (production : List ProductionRecord) (sku : String)
    (h : ∀ r ∈ orders, 0 ≤ r.qty_ord)
    (hzero : demand_by_sku orders sku = 0) :
    otif_for weekOf inventory orders production sku = 1 := by
  have hdated : demand_dated_by_sku orders sku ≤ 0 := by
    rw [← hzero]
    exact demand_dated_le_demand orders h sku
  have htotal : series_total (dated_pairs weekOf orders sku) ≤ 0 := by
    rw [series_total_dated_pairs]
    exact hdated
  unfold otif_for otif_ratio_for_sku
  simp [htotal]

/-! ### The SKU universe -/

theorem all_skus_nodup (inventory : List InventoryRecord)
    (orders : List OrderRecord) (production : List ProductionRecord) :
    (all_skus inventory orders production).Nodup :=
  ((List.perm_insertionSort _ _).nodup_iff).2 (List.nodup_dedup _)

theorem mem_all_skus (inventory : List InventoryRecord)
    (orders : List OrderRecord) (production : List ProductionRecord)
    (s : String) :
    s ∈ all_skus inventory orders production ↔
      (∃ r ∈ inventory, r.sku = s) ∨ (∃ r ∈ orders, r.sku = s) ∨
      (∃ r ∈ production, r.sku = s) := by
  unfold all_skus
  rw [(List.perm_insertionSort _ _).mem_iff, List.mem_dedup]
  simp only [List.mem_append, List.mem_map]
  constructor
  · rintro ((⟨r, hr, rfl⟩ | ⟨r, hr, rfl⟩) | ⟨r, hr, rfl⟩)
    · exact Or.inr (Or.inl ⟨r, hr, rfl⟩)
    · exact Or.inl ⟨r, hr, rfl⟩
    · exact Or.inr (Or.inr ⟨r, hr, rfl⟩)
  · rintro (⟨r, hr, rfl⟩ | ⟨r, hr, rfl⟩ | ⟨r, hr, rfl⟩)
    · exact Or.inl (Or.inr ⟨r, hr, rfl⟩)
    · exact Or.inl (Or.inl ⟨r, hr, rfl⟩)
    · exact Or.inr ⟨r, hr, rfl⟩

/-! ### Field values of a computed row -/

theorem kpi_row_sku (weekOf : ℤ → ℤ) (inventory : List InventoryRecord)
    (orders : List OrderRecord) (production : List ProductionRecord)
    (sku : String) :
    (kpi_row_for_sku weekOf inventory orders production sku).sku = sku :=
  rfl

theorem kpi_row_total_demand (weekOf : ℤ → ℤ)
    (inventory : List InventoryRecord) (orders : List OrderRecord)
    (production : List ProductionRecord) (sku : String) :
    (kpi_row_for_sku weekOf inventory orders production sku).total_demand
      = demand_by_sku orders sku :=
  rfl

theorem kpi_row_total_supply (weekOf : ℤ → ℤ)
    (inventory : List InventoryRecord) (orders : List OrderRecord)
    (production : List ProductionRecord) (sku : String) :
    (kpi_row_for_sku weekOf inventory orders production sku).total_supply
      = inventory_by_sku inventory sku + production_by_sku production sku :=
  rfl

theorem kpi_row_fill_rate (weekOf : ℤ → ℤ)
    (inventory : List InventoryRecord) (orders : List OrderRecord)
    (production : List ProductionRecord) (sku : String) :
    (kpi_row_for_sku weekOf inventory orders production sku).fill_rate
      = (fill_rate_calc (demand_by_sku orders sku)
          (inventory_by_sku inventory sku + production_by_sku production sku)).map
          (round_to 4) :=
  rfl

theorem kpi_row_otif (weekOf : ℤ → ℤ) (inventory : List InventoryRecord)
    (orders : List OrderRecord) (production : List ProductionRecord)
    (sku : String) :
    (kpi_row_for_sku weekOf inventory orders production sku).otif
      = round_to 4 (otif_for weekOf inventory orders production sku) :=
  rfl

theorem kpi_row_days_of_cover (weekOf : ℤ → ℤ)
    (inventory : List InventoryRecord) (orders : List OrderRecord)
    (production : List ProductionRecord) (sku : String) :
    (kpi_row_for_sku weekOf inventory orders production sku).days_of_cover
      = round_days_of_cover
          (days_of_cover_calc
            (inventory_by_sku inventory sku + production_by_sku production sku)
            (avg_daily_demand (demand_by_sku orders sku)
              (demand_window_days orders sku))) :=
  rfl

/-! ### Concrete scenario inputs -/

/-- Late-supply scenario (spec §8): SKU "B002", inventory 0, one order for
10 units due week 1, production of 10 units in week 2.  Weeks are used as
day numbers with `weekOf = id`. -/
def late_inventory : List InventoryRecord := [⟨"B002", 0⟩]

/-- Orders of the late-supply scenario. -/
def late_orders : List OrderRecord := [⟨"B002", 10, some 1⟩]

/-- Production plan of the late-supply scenario. -/
def late_production : List ProductionRecord := [⟨"B002", 2, 10⟩]

/-! ### Claim theorems -/

/-- C2: the OTIF simulation is non-retroactive.  In the concrete scenario
of SKU "B002" with inventory 0, one order for 10 units due week 1 and
production of 10 units in week 2, the per-SKU table reports OTIF 0 while
the fill rate is 1: supply arriving after a demand week never makes that
week's unmet demand count as on time. -/
theorem c2_late_supply_not_retroactive :
    ((compute_kpis id late_inventory late_orders late_production).1.map
      (fun r => (r.sku, r.otif, r.fill_rate)))
      = [("B002", 0, some 1)] := by
  simp [compute_kpis, all_skus, kpi_row_for_sku, late_inventory, late_orders,
    late_production, demand_by_sku, inventory_by_sku, production_by_sku,
    fill_rate_calc, otif_for, otif_ratio_for_sku, dated_pairs, production_pairs,
    series_total, series_keys, series_get, sorted_weeks, otif_sim, otif_step,
    List.insertionSort, List.orderedInsert, round_to, round_eq]
  norm_num [Int.floor_eq_iff]

/-- C5: for all inputs with non-negative quantities, every SKU's reported
OTIF lies in [0, 1], and a SKU with zero total demand has OTIF exactly 1. -/
theorem c5_otif_in_unit_interval (weekOf : ℤ → ℤ)
    (inventory : List InventoryRecord) (orders : List OrderRecord)
    (production : List ProductionRecord)
    (hi : ∀ r ∈ inventory, 0 ≤ r.available)
    (ho : ∀ r ∈ orders, 0 ≤ r.qty_ord)
    (hp : ∀ r ∈ production, 0 ≤ r.produced) (sku : String) :
    0 ≤ (kpi_row_for_sku weekOf inventory orders production sku).otif ∧
    (kpi_row_for_sku weekOf inventory orders production sku).otif ≤ 1 ∧
    (demand_by_sku orders sku = 0 →
      (kpi_row_for_sku weekOf inventory orders production sku).otif = 1) := by
  rw [kpi_row_otif]
  have hmem : 0 ≤ otif_for weekOf inventory orders production sku ∧
      otif_for weekOf inventory orders production sku ≤ 1 :=
    otif_ratio_for_sku_mem (dated_pairs weekOf orders sku)
      (production_pairs production sku) (inventory_by_sku inventory sku)
      (dated_pairs_snd_nonneg weekOf orders ho sku)
      (production_pairs_snd_nonneg production hp sku)
      (inventory_by_sku_nonneg inventory hi sku)
  refine ⟨round_to_nonneg _ _ hmem.1, round_to_le_one _ _ hmem.2, ?_⟩
  intro hzero
  rw [otif_for_eq_one_of_zero_demand weekOf inventory orders production sku
    ho hzero, round_to_one]

/-- Witness for C5 at a concrete input. -/
theorem c5_witness :
    0 ≤ (kpi_row_for_sku id [⟨"A", 1⟩] [⟨"A", 2, some 1⟩] []
      "A").otif ∧
    (kpi_row_for_sku id [⟨"A", 1⟩] [⟨"A", 2, some 1⟩] [] "A").otif ≤ 1 ∧
    (demand_by_sku [⟨"A", 2, some 1⟩] "A" = 0 →
      (kpi_row_for_sku id [⟨"A", 1⟩] [⟨"A", 2, some 1⟩] [] "A").otif = 1) :=
  c5_otif_in_unit_interval id [⟨"A", 1⟩] [⟨"A", 2, some 1⟩] []
    (by simp) (by simp) (by simp) "A"

/-- C9: `compute_kpis` is deterministic — two calls with identical inputs
return identical per-SKU tables and totals (the embedding is a pure
function of its three input tables and the week derivation). -/
theorem c9_deterministic (weekOf : ℤ → ℤ)
    (inventory₁ inventory₂ : List InventoryRecord)
    (orders₁ orders₂ : List OrderRecord)
    (production₁ production₂ : List ProductionRecord)
    (hi : inventory₁ = inventory₂) (ho : orders₁ = orders₂)
    (hp : production₁ = production₂) :
    compute_kpis weekOf inventory₁ orders₁ production₁
      = compute_kpis weekOf inventory₂ orders₂ production₂ := by
  rw [hi, ho, hp]

/-- Witness for C9 at a concrete input. -/
theorem c9_witness :
    compute_kpis id late_inventory late_orders late_production
      = compute_kpis id late_inventory late_orders late_production :=
  c9_deterministic id late_inventory late_inventory late_orders late_orders
    late_production late_production rfl rfl rfl

/-- C10: given non-negative weekly demand, non-negative weekly supply and
a state whose on-time units are non-negative and bounded by the cumulative
demand and supply (as the zero-initialised start state with non-negative
starting inventory is), the OTIF week loop keeps
`0 ≤ on_time_units ≤ min cumulative_demand cumulative_supply` and never
decreases `on_time_units`. -/
theorem c10_otif_loop_invariant (dget sget : ℤ → ℚ) (hd : ∀ w, 0 ≤ dget w)
    (hs : ∀ w, 0 ≤ sget w) (weeks : List ℤ) (st : OtifState)
    (h0 : 0 ≤ st.on_time_units)
    (hmin : st.on_time_units
      ≤ min st.cumulative_demand st.cumulative_supply) :
    0 ≤ (otif_sim dget sget weeks st).on_time_units ∧
    (otif_sim dget sget weeks st).on_time_units
      ≤ min (otif_sim dget sget weeks st).cumulative_demand
          (otif_sim dget sget weeks st).cumulative_supply ∧
    st.on_time_units ≤ (otif_sim dget sget weeks st).on_time_units := by
  obtain ⟨a, b, c, d⟩ := otif_sim_inv dget sget hd hs weeks st h0
    (le_trans hmin (min_le_left _ _)) (le_trans hmin (min_le_right _ _))
  exact ⟨a, le_min b c, d⟩

/-- Witness for C10 at a concrete input. -/
theorem c10_witness :
    0 ≤ (otif_sim (fun _ => 1) (fun _ => 2) [1, 2, 3]
      ⟨5, 0, 0⟩).on_time_units ∧
    (otif_sim (fun _ => 1) (fun _ => 2) [1, 2, 3] ⟨5, 0, 0⟩).on_time_units
      ≤ min (otif_sim (fun _ => 1) (fun _ => 2) [1, 2, 3]
            ⟨5, 0, 0⟩).cumulative_demand
          (otif_sim (fun _ => 1) (fun _ => 2) [1, 2, 3]
            ⟨5, 0, 0⟩).cumulative_supply ∧
    (OtifState.mk 5 0 0).on_time_units
      ≤ (otif_sim (fun _ => 1) (fun _ => 2) [1, 2, 3]
          ⟨5, 0, 0⟩).on_time_units :=
  c10_otif_loop_invariant (fun _ => 1) (fun _ => 2)
    (fun _ => by norm_num) (fun _ => by norm_num) [1, 2, 3] ⟨5, 0, 0⟩
    (by norm_num) (by norm_num)

/-- C4: for a SKU with positive total demand the fill rate is
`min(supply_total, demand_total) / demand_total`, lies in [0, 1] and is
exactly 1 whenever supply covers demand; for a SKU with zero total demand
the fill rate is the not-applicable sentinel, distinct from zero. -/
theorem c4_fill_rate (inventory : List InventoryRecord)
    (orders : List OrderRecord) (production : List ProductionRecord)
    (hi : ∀ r ∈ inventory, 0 ≤ r.available)
    (hp : ∀ r ∈ production, 0 ≤ r.produced) (sku : String) :
    (0 < demand_by_sku orders sku →
      fill_rate_calc (demand_by_sku orders sku)
          (inventory_by_sku inventory sku + production_by_sku production sku)
        = some (min (inventory_by_sku inventory sku
              + production_by_sku production sku) (demand_by_sku orders sku)
            / demand_by_sku orders sku) ∧
      0 ≤ min (inventory_by_sku inventory sku
            + production_by_sku production sku) (demand_by_sku orders sku)
          / demand_by_sku orders sku ∧
      min (inventory_by_sku inventory sku
            + production_by_sku production sku) (demand_by_sku orders sku)
          / demand_by_sku orders sku ≤ 1 ∧
      (demand_by_sku orders sku
          ≤ inventory_by_sku inventory sku + production_by_sku production sku →
        min (inventory_by_sku inventory sku
              + production_by_sku production sku) (demand_by_sku orders sku)
            / demand_by_sku orders sku = 1)) ∧
    (demand_by_sku orders sku = 0 →
      fill_rate_calc (demand_by_sku orders sku)
          (inventory_by_sku inventory sku + production_by_sku production sku)
        = none) := by
  have hsup : 0 ≤ inventory_by_sku inventory sku
      + production_by_sku production sku :=
    add_nonneg (inventory_by_sku_nonneg inventory hi sku)
      (production_by_sku_nonneg production hp sku)
  constructor
  · intro hpos
    refine ⟨?_, ?_, ?_, ?_⟩
    · rw [fill_rate_calc, if_neg (not_le.2 hpos)]
    · exact div_nonneg (le_min hsup (le_of_lt hpos)) (le_of_lt hpos)
    · rw [div_le_one hpos]
      exact min_le_right _ _
    · intro hds
      rw [min_eq_right hds, div_self (ne_of_gt hpos)]
  · intro hzero
    rw [fill_rate_calc, if_pos (le_of_eq hzero)]

/-- Witness for C4 at a concrete input. -/
theorem c4_witness :
    (0 < demand_by_sku [⟨"A", 4, none⟩] "A" →
      fill_rate_calc (demand_by_sku [⟨"A", 4, none⟩] "A")
          (inventory_by_sku [⟨"A", 5⟩] "A" + production_by_sku [] "A")
        = some (min (inventory_by_sku [⟨"A", 5⟩] "A"
              + production_by_sku [] "A") (demand_by_sku [⟨"A", 4, none⟩] "A")
            / demand_by_sku [⟨"A", 4, none⟩] "A") ∧
      0 ≤ min (inventory_by_sku [⟨"A", 5⟩] "A"
            + production_by_sku [] "A") (demand_by_sku [⟨"A", 4, none⟩] "A")
          / demand_by_sku [⟨"A", 4, none⟩] "A" ∧
      min (inventory_by_sku [⟨"A", 5⟩] "A"
            + production_by_sku [] "A") (demand_by_sku [⟨"A", 4, none⟩] "A")
          / demand_by_sku [⟨"A", 4, none⟩] "A" ≤ 1 ∧
      (demand_by_sku [⟨"A", 4, none⟩] "A"
          ≤ inventory_by_sku [⟨"A", 5⟩] "A" + production_by_sku [] "A" →
        min (inventory_by_sku [⟨"A", 5⟩] "A"
              + production_by_sku [] "A") (demand_by_sku [⟨"A", 4, none⟩] "A")
            / demand_by_sku [⟨"A", 4, none⟩] "A" = 1)) ∧
    (demand_by_sku [⟨"A", 4, none⟩] "A" = 0 →
      fill_rate_calc (demand_by_sku [⟨"A", 4, none⟩] "A")
          (inventory_by_sku [⟨"A", 5⟩] "A" + production_by_sku [] "A")
        = none) :=
  c4_fill_rate [⟨"A", 5⟩] [⟨"A", 4, none⟩] [] (by simp) (by simp) "A"

/-- C6: the days-of-cover pipeline.  The demand window exists exactly when
the SKU has a parseable expected date; when it is `some n`, `n ≥ 1`, `n`
is the clamped span between two of the SKU's parseable dates and bounds
every such span from above (so it spans the earliest to the latest date,
inclusive, with minimum 1).  The average daily demand is `0` without a
window and `total_demand / n` with one, and the days-of-cover value is
`supply / avg` when `avg > 0`, positive infinity when `avg = 0` and
supply is positive, and not applicable when both are zero. -/
theorem c6_days_of_cover_cases (orders : List OrderRecord) (sku : String)
    (supply_total : ℚ) :
    (demand_window_days orders sku = none
      ↔ parseable_dates orders sku = []) ∧
    (∀ n, demand_window_days orders sku = some n →
      1 ≤ n ∧
      (∃ x ∈ parseable_dates orders sku, ∃ y ∈ parseable_dates orders sku,
        n = max (x - y + 1) 1) ∧
      (∀ x ∈ parseable_dates orders sku, ∀ y ∈ parseable_dates orders sku,
        x - y + 1 ≤ n)) ∧
    (demand_window_days orders sku = none →
      avg_daily_demand (demand_by_sku orders sku)
        (demand_window_days orders sku) = 0) ∧
    (∀ n, demand_window_days orders sku = some n →
      avg_daily_demand (demand_by_sku orders sku)
        (demand_window_days orders sku)
        = demand_by_sku orders sku / (n : ℚ)) ∧
    (0 < avg_daily_demand (demand_by_sku orders sku)
        (demand_window_days orders sku) →
      days_of_cover_calc supply_total
          (avg_daily_demand (demand_by_sku orders sku)
            (demand_window_days orders sku))
        = DaysOfCover.finite (supply_total
            / avg_daily_demand (demand_by_sku orders sku)
              (demand_window_days orders sku))) ∧
    (avg_daily_demand (demand_by_sku orders sku)
        (demand_window_days orders sku) = 0 → 0 < supply_total →
      days_of_cover_calc supply_total
          (avg_daily_demand (demand_by_sku orders sku)
            (demand_window_days orders sku))
        = DaysOfCover.infinite) ∧
    (avg_daily_demand (demand_by_sku orders sku)
        (demand_window_days orders sku) = 0 → supply_total = 0 →
      days_of_cover_calc supply_total
          (avg_daily_demand (demand_by_sku orders sku)
            (demand_window_days orders sku))
        = DaysOfCover.na) := by
  refine ⟨?_, ?_, ?_, ?_, ?_, ?_, ?_⟩
  · cases h : parseable_dates orders sku with
    | nil => simp [demand_window_days, h]
    | cons d ds => simp [demand_window_days, h]
  · intro n hn
    cases h : parseable_dates orders sku with
    | nil => rw [demand_window_days, h] at hn; exact absurd hn (by simp)
    | cons d ds =>
      rw [demand_window_days, h] at hn
      have hval : max ((ds.foldl max d) - (ds.foldl min d) + 1) 1 = n :=
        Option.some_injective _ hn
      refine ⟨?_, ?_, ?_⟩
      · rw [← hval]; exact le_max_right _ _
      · exact ⟨ds.foldl max d, foldl_max_mem d ds,
          ds.foldl min d, foldl_min_mem d ds, hval.symm⟩
      · intro x hx y hy
        have h1 : x ≤ ds.foldl max d := le_foldl_max d ds x hx
        have h2 : ds.foldl min d ≤ y := foldl_min_le d ds y hy
        rw [← hval]
        calc x - y + 1 ≤ (ds.foldl max d) - (ds.foldl min d) + 1 := by linarith
          _ ≤ max ((ds.foldl max d) - (ds.foldl min d) + 1) 1 := le_max_left _ _
  · intro hn; rw [hn, avg_daily_demand]
  · intro n hn; rw [hn, avg_daily_demand]
  · intro ha
    rw [days_of_cover_calc, if_neg (not_le.2 ha)]
  · intro ha hs
    rw [days_of_cover_calc, if_pos (le_of_eq ha), if_pos hs]
  · intro ha hs
    rw [days_of_cover_calc, if_pos (le_of_eq ha), if_neg (by rw [hs]; exact lt_irrefl 0)]

/-- Days-of-cover window scenario used as the C6 witness: two dated orders
for SKU "B" spanning days 5 to 14 (a 10-day inclusive window). -/
def window_orders : List OrderRecord := [⟨"B", 30, some 5⟩, ⟨"B", 70, some 14⟩]

/-- Witness for C6 at a concrete input. -/
theorem c6_witness :
    (demand_window_days window_orders "B" = none
      ↔ parseable_dates window_orders "B" = []) ∧
    (∀ n, demand_window_days window_orders "B" = some n →
      1 ≤ n ∧
      (∃ x ∈ parseable_dates window_orders "B",
        ∃ y ∈ parseable_dates window_orders "B", n = max (x - y + 1) 1) ∧
      (∀ x ∈ parseable_dates window_orders "B",
        ∀ y ∈ parseable_dates window_orders "B", x - y + 1 ≤ n)) ∧
    (demand_window_days window_orders "B" = none →
      avg_daily_demand (demand_by_sku window_orders "B")
        (demand_window_days window_orders "B") = 0) ∧
    (∀ n, demand_window_days window_orders "B" = some n →
      avg_daily_demand (demand_by_sku window_orders "B")
        (demand_window_days window_orders "B")
        = demand_by_sku window_orders "B" / (n : ℚ)) ∧
    (0 < avg_daily_demand (demand_by_sku window_orders "B")
        (demand_window_days window_orders "B") →
      days_of_cover_calc 50
          (avg_daily_demand (demand_by_sku window_orders "B")
            (demand_window_days window_orders "B"))
        = DaysOfCover.finite (50
            / avg_daily_demand (demand_by_sku window_orders "B")
              (demand_window_days window_orders "B"))) ∧
    (avg_daily_demand (demand_by_sku window_orders "B")
        (demand_window_days window_orders "B") = 0 → 0 < (50 : ℚ) →
      days_of_cover_calc 50
          (avg_daily_demand (demand_by_sku window_orders "B")
            (demand_window_days window_orders "B"))
        = DaysOfCover.infinite) ∧
    (avg_daily_demand (demand_by_sku window_orders "B")
        (demand_window_days window_orders "B") = 0 → (50 : ℚ) = 0 →
      days_of_cover_calc 50
          (avg_daily_demand (demand_by_sku window_orders "B")
            (demand_window_days window_orders "B"))
        = DaysOfCover.na) :=
  c6_days_of_cover_cases window_orders "B" 50

/-- C7: the per-SKU table has exactly one row per SKU of the union of the
SKUs appearing in the three input tables, and a SKU with zero total demand
and total supply 5 is still reported, with fill rate not applicable, OTIF
exactly 1 and days of cover positive infinity. -/
theorem c7_sku_universe (weekOf : ℤ → ℤ) (inventory : List InventoryRecord)
    (orders : List OrderRecord) (production : List ProductionRecord)
    (ho : ∀ r ∈ orders, 0 ≤ r.qty_ord) (sku : String)
    (hd : demand_by_sku orders sku = 0)
    (hs : inventory_by_sku inventory sku + production_by_sku production sku
      = 5) :
    ((compute_kpis weekOf inventory orders production).1.map (fun r => r.sku)
      = all_skus inventory orders production) ∧
    (all_skus inventory orders production).Nodup ∧
    (∀ s, s ∈ all_skus inventory orders production ↔
      (∃ r ∈ inventory, r.sku = s) ∨ (∃ r ∈ orders, r.sku = s) ∨
      (∃ r ∈ production, r.sku = s)) ∧
    (kpi_row_for_sku weekOf inventory orders production sku).fill_rate
      = none ∧
    (kpi_row_for_sku weekOf inventory orders production sku).otif = 1 ∧
    (kpi_row_for_sku weekOf inventory orders production sku).days_of_cover
      = DaysOfCover.infinite := by
  refine ⟨?_, all_skus_nodup inventory orders production,
    mem_all_skus inventory orders production, ?_, ?_, ?_⟩
  · show ((all_skus inventory orders production).map
        (kpi_row_for_sku weekOf inventory orders production)).map
        (fun r => r.sku) = all_skus inventory orders production
    rw [List.map_map]
    exact List.map_id _
  · rw [kpi_row_fill_rate, fill_rate_calc, if_pos (le_of_eq hd)]
    rfl
  · rw [kpi_row_otif,
      otif_for_eq_one_of_zero_demand weekOf inventory orders production sku
        ho hd, round_to_one]
  · rw [kpi_row_days_of_cover]
    have havg : avg_daily_demand (demand_by_sku orders sku)
        (demand_window_days orders sku) = 0 := by
      cases h : demand_window_days orders sku with
      | none => rw [avg_daily_demand]
      | some n => rw [avg_daily_demand, hd, zero_div]
    rw [havg, hs, days_of_cover_calc, if_pos (le_refl 0),
      if_pos (show (0 : ℚ) < 5 by norm_num)]
    rfl

/-- Witness for C7 at a concrete input. -/
theorem c7_witness :
    ((compute_kpis id [⟨"Z", 5⟩] [] []).1.map (fun r => r.sku)
      = all_skus [⟨"Z", 5⟩] [] []) ∧
    (all_skus [⟨"Z", 5⟩] [] []).Nodup ∧
    (∀ s, s ∈ all_skus [⟨"Z", 5⟩] [] [] ↔
      (∃ r ∈ [⟨"Z", 5⟩], InventoryRecord.sku r = s) ∨
      (∃ r ∈ ([] : List OrderRecord), r.sku = s) ∨
      (∃ r ∈ ([] : List ProductionRecord), r.sku = s)) ∧
    (kpi_row_for_sku id [⟨"Z", 5⟩] [] [] "Z").fill_rate = none ∧
    (kpi_row_for_sku id [⟨"Z", 5⟩] [] [] "Z").otif = 1 ∧
    (kpi_row_for_sku id [⟨"Z", 5⟩] [] [] "Z").days_of_cover
      = DaysOfCover.infinite :=
  c7_sku_universe id [⟨"Z", 5⟩] [] [] (by simp) "Z"
    (by simp [demand_by_sku])
    (by simp [inventory_by_sku, production_by_sku])

/-- C8: each row's total supply is the SKU's inventory sum plus production
sum, the aggregate demand and supply are the plain sums of the per-SKU
columns, and when the overall demand is positive the overall fill rate is
`min(overall_supply, overall_demand) / overall_demand`. -/
theorem c8_totals (weekOf : ℤ → ℤ) (inventory : List InventoryRecord)
    (orders : List OrderRecord) (production : List ProductionRecord) :
    (∀ r ∈ (compute_kpis weekOf inventory orders production).1,
      r.total_supply = inventory_by_sku inventory r.sku
        + production_by_sku production r.sku) ∧
    (compute_kpis weekOf inventory orders production).2.total_demand
      = ((compute_kpis weekOf inventory orders production).1.map
          (fun r => r.total_demand)).sum ∧
    (compute_kpis weekOf inventory orders production).2.total_supply
      = ((compute_kpis weekOf inventory orders production).1.map
          (fun r => r.total_supply)).sum ∧
    (0 < (compute_kpis weekOf inventory orders production).2.total_demand →
      (compute_kpis weekOf inventory orders production).2.fill_rate
        = some (min
            (compute_kpis weekOf inventory orders production).2.total_supply
            (compute_kpis weekOf inventory orders production).2.total_demand
          / (compute_kpis weekOf inventory orders production).2.total_demand)) := by
  refine ⟨?_, rfl, rfl, ?_⟩
  · intro r hr
    have hrows : (compute_kpis weekOf inventory orders production).1
        = (all_skus inventory orders production).map
            (kpi_row_for_sku weekOf inventory orders production) := rfl
    rw [hrows] at hr
    obtain ⟨s, _, rfl⟩ := List.mem_map.1 hr
    rw [kpi_row_total_supply, kpi_row_sku]
  · intro h
    exact if_pos h

/-- Witness for C8 at a concrete input: the late-supply tables have
overall demand 10 > 0, so the overall fill rate is defined. -/
theorem c8_witness :
    0 < (compute_kpis id late_inventory late_orders late_production).2.total_demand ∧
    (compute_kpis id late_inventory late_orders late_production).2.fill_rate
      = some (min
          (compute_kpis id late_inventory late_orders late_production).2.total_supply
          (compute_kpis id late_inventory late_orders late_production).2.total_demand
        / (compute_kpis id late_inventory late_orders late_production).2.total_demand) := by
  have hpos : 0 < (compute_kpis id late_inventory late_orders
      late_production).2.total_demand := by
    simp [compute_kpis, all_skus, kpi_row_for_sku, late_inventory, late_orders,
      late_production, demand_by_sku, inventory_by_sku, production_by_sku,
      List.insertionSort, List.orderedInsert]
  exact ⟨hpos,
    (c8_totals id late_inventory late_orders late_production).2.2.2 hpos⟩

/-! ### C1: the OTIF denominator -/

/-- Mixed-parse scenario: SKU "A001" with ample inventory, one dated order
for 5 units due week 1 and one order for 10 units whose expected date
failed to parse. -/
def mixed_inventory : List InventoryRecord := [⟨"A001", 100⟩]

/-- Orders of the mixed-parse scenario. -/
def mixed_orders : List OrderRecord :=
  [⟨"A001", 5, some 1⟩, ⟨"A001", 10, none⟩]

/-- C1 counterexample: in the mixed-parse scenario the code computes
per-SKU OTIF 1, although the full total demand is 15 and the simulation's
on-time units are 5 — so the OTIF is NOT `on_time_units / total_demand`
with the full total demand (which would be 5/15): the undated order is
excluded from the denominator as well. -/
theorem c1_counterexample :
    otif_for id mixed_inventory mixed_orders [] "A001" = 1 ∧
    demand_by_sku mixed_orders "A001" = 15 ∧
    (otif_sim (series_get (dated_pairs id mixed_orders "A001"))
        (series_get (production_pairs [] "A001"))
        (sorted_weeks (series_keys (dated_pairs id mixed_orders "A001"))
          (series_keys (production_pairs [] "A001")))
        ⟨inventory_by_sku mixed_inventory "A001", 0, 0⟩).on_time_units = 5 ∧
    (1 : ℚ) ≠ 5 / 15 := by
  refine ⟨?_, ?_, ?_, by norm_num⟩
  · simp [otif_for, otif_ratio_for_sku, dated_pairs, production_pairs,
      series_total, series_keys, series_get, sorted_weeks, otif_sim, otif_step,
      inventory_by_sku, mixed_inventory, mixed_orders, List.insertionSort,
      List.orderedInsert]
    norm_num
  · simp [demand_by_sku, mixed_orders]
    norm_num
  · simp [dated_pairs, production_pairs, series_keys, series_get, sorted_weeks,
      otif_sim, otif_step, inventory_by_sku, mixed_inventory, mixed_orders,
      List.insertionSort, List.orderedInsert]
    norm_num

/-- C1 (amended): the per-SKU OTIF is `on_time_units` divided by the SKU's
DATED demand total — the sum of `qty_ord` over the SKU's orders with a
parseable expected date — and 1.0 when that dated total is at most 0;
orders with unparseable dates are excluded both from the week-by-week
simulation and from the denominator (they still count in the reported
`total_demand` column, which is `demand_by_sku`). -/
theorem c1_amended_otif_denominator (weekOf : ℤ → ℤ)
    (inventory : List InventoryRecord) (orders : List OrderRecord)
    (production : List ProductionRecord) (sku : String) :
    otif_for weekOf inventory orders production sku
      = if demand_dated_by_sku orders sku ≤ 0 then 1
        else (otif_sim (series_get (dated_pairs weekOf orders sku))
            (series_get (production_pairs production sku))
            (sorted_weeks (series_keys (dated_pairs weekOf orders sku))
              (series_keys (production_pairs production sku)))
            ⟨inventory_by_sku inventory sku, 0, 0⟩).on_time_units
          / demand_dated_by_sku orders sku := by
  simp only [otif_for, otif_ratio_for_sku]
  rw [series_total_dated_pairs]

/-! ### C3: the aggregate OTIF weighting -/

/-- Tight-supply scenario: SKU "A" with inventory 1 and a single order for
3 units due week 1; the per-SKU OTIF is 1/3, which is not representable in
4 decimal places. -/
def tight_inventory : List InventoryRecord := [⟨"A", 1⟩]

/-- Orders of the tight-supply scenario. -/
def tight_orders : List OrderRecord := [⟨"A", 3, some 1⟩]

/-- The aggregate OTIF as claim C3 words it (for comparison with the value
`compute_kpis` returns): the demand-weighted mean of the PRE-ROUNDING
per-SKU OTIF values at full internal precision, over the SKU universe,
divided by the overall demand; undefined when the overall demand is not
positive. -/
def overall_otif_fullprec (weekOf : ℤ → ℤ) (inventory : List InventoryRecord)
    (orders : List OrderRecord) (production : List ProductionRecord) :
    Option ℚ :=
  let skus := all_skus inventory orders production
  let overall_demand := (skus.map (demand_by_sku orders)).sum
  if overall_demand > 0 then
    some ((skus.map (fun s =>
      otif_for weekOf inventory orders production s
        * demand_by_sku orders s)).sum / overall_demand)
  else none

/-- C3 counterexample: in the tight-supply scenario `compute_kpis` returns
aggregate OTIF 3333/10000 — the demand-weighted mean of the ROUNDED
per-SKU OTIF column — while the demand-weighted mean of the pre-rounding
values is 1/3, and the two differ. -/
theorem c3_counterexample :
    (compute_kpis id tight_inventory tight_orders []).2.otif
      = some (3333 / 10000) ∧
    overall_otif_fullprec id tight_inventory tight_orders [] = some (1 / 3) ∧
    (3333 / 10000 : ℚ) ≠ 1 / 3 := by
  refine ⟨?_, ?_, by norm_num⟩
  · simp [compute_kpis, all_skus, kpi_row_for_sku, tight_inventory,
      tight_orders, demand_by_sku, inventory_by_sku, production_by_sku,
      fill_rate_calc, otif_for, otif_ratio_for_sku, dated_pairs,
      production_pairs, series_total, series_keys, series_get, sorted_weeks,
      otif_sim, otif_step, List.insertionSort, List.orderedInsert, round_to,
      round_eq, demand_window_days, parseable_dates, avg_daily_demand,
      days_of_cover_calc, round_days_of_cover]
    norm_num [Int.floor_eq_iff]
  · simp [overall_otif_fullprec, all_skus, tight_inventory, tight_orders,
      demand_by_sku, inventory_by_sku, otif_for, otif_ratio_for_sku,
      dated_pairs, production_pairs, series_total, series_keys, series_get,
      sorted_weeks, otif_sim, otif_step, List.insertionSort,
      List.orderedInsert]
    norm_num

/-- C3 (amended): when the overall demand is positive, the aggregate OTIF
returned in the totals is the demand-weighted mean of the per-SKU OTIF
values AS ROUNDED to 4 decimal places (the table column), divided by the
overall demand. -/
theorem c3_amended_weighted_otif (weekOf : ℤ → ℤ)
    (inventory : List InventoryRecord) (orders : List OrderRecord)
    (production : List ProductionRecord)
    (h : 0 < ((all_skus inventory orders production).map
      (demand_by_sku orders)).sum) :
    (compute_kpis weekOf inventory orders production).2.otif
      = some (((all_skus inventory orders production).map (fun s =>
          round_to 4 (otif_for weekOf inventory orders production s)
            * demand_by_sku orders s)).sum
        / ((all_skus inventory orders production).map
            (demand_by_sku orders)).sum) := by
  have hrows_d : (((all_skus inventory orders production).map
      (kpi_row_for_sku weekOf inventory orders production)).map
        (fun r => r.total_demand))
      = (all_skus inventory orders production).map (demand_by_sku orders) := by
    rw [List.map_map]
    rfl
  have hrows_o : (((all_skus inventory orders production).map
      (kpi_row_for_sku weekOf inventory orders production)).map
        (fun r => r.otif * r.total_demand))
      = (all_skus inventory orders production).map (fun s =>
          round_to 4 (otif_for weekOf inventory orders production s)
            * demand_by_sku orders s) := by
    rw [List.map_map]
    rfl
  show (if 0 < (((all_skus inventory orders production).map
      (kpi_row_for_sku weekOf inventory orders production)).map
        (fun r => r.total_demand)).sum then _ else none) = _
  rw [hrows_d, if_pos h, hrows_o]

/-- Witness for C3 (amended) at a concrete input. -/
theorem c3_amended_witness :
    (compute_kpis id tight_inventory tight_orders []).2.otif
      = some (((all_skus tight_inventory tight_orders []).map (fun s =>
          round_to 4 (otif_for id tight_inventory tight_orders [] s)
            * demand_by_sku tight_orders s)).sum
        / ((all_skus tight_inventory tight_orders []).map
            (demand_by_sku tight_orders)).sum) :=
  c3_amended_weighted_otif id tight_inventory tight_orders []
    (by simp [all_skus, tight_inventory, tight_orders, demand_by_sku,
      List.insertionSort, List.orderedInsert])

end Prosacco
